import Mathlib

/-! Shallow embedding of the `ov` crate (src/lib.rs).

Each Rust trait method is embedded as a Lean function. Methods that take the
receiver by shared or unique reference are modelled with explicit state
passing: the embedded function returns a pair of the call result and the
receiver's value after the call. A Rust `FnOnce(&mut T) -> Ret` closure is
modelled as a state transformer `α → α × ρ`. The `std::ops::Deref` and
`std::ops::DerefMut` traits are modelled as explicit dictionaries; a
`&mut Target` reference obtained through `DerefMut::deref_mut` is modelled
as a lens (a getter together with a setter satisfying the read-after-write
law that Rust mutable references guarantee). -/

universe u v w

/-- Embedding of `Over::over` (src/lib.rs lines 102-111): the receiver is
consumed and the callback receives it by value; the body is `f(self)`. -/
def Over.over {α : Type u} {ρ : Type v} (v : α) (f : α → ρ) : ρ :=
  f v

/-- Embedding of `OverRef::over_ref` (src/lib.rs lines 114-123): the receiver
is taken by shared reference, so alongside the result of the body `f(self)`
the call hands the receiver back to the caller unchanged. -/
def OverRef.over_ref {α : Type u} {ρ : Type v} (v : α) (f : α → ρ) : ρ × α :=
  (f v, v)

/-- Embedding of `OverMut::over_mut` (src/lib.rs lines 126-135): the receiver
is taken by unique reference and the callback may mutate it, so the callback
is a state transformer on the receiver and the call returns the result of the
body `f(self)` together with the mutated receiver. -/
def OverMut.over_mut {α : Type u} {ρ : Type v} (v : α) (f : α → α × ρ) : ρ × α :=
  ((f v).2, (f v).1)

/-- Embedding of the `std::ops::Deref` trait bound used by `OverDeref`
(src/lib.rs lines 96, 138-154): a dictionary giving the shared dereferencing
view from the wrapper type `α` to its target type `τ`. -/
structure Deref (α : Type u) (τ : Type v) where
  deref : α → τ

/-- Embedding of the `std::ops::DerefMut` trait bound used by `OverDerefMut`
(src/lib.rs lines 97, 157-174): on top of `Deref`, a unique dereferencing
view, modelled as a setter writing a new target value back into the wrapper,
with the read-after-write law that Rust mutable references guarantee
(reading the target after writing through the unique view yields the value
that was written). -/
structure DerefMut (α : Type u) (τ : Type v) extends Deref α τ where
  update : α → τ → α
  deref_update : ∀ a t, deref (update a t) = t

/-- Embedding of `OverDeref::over_deref` (src/lib.rs lines 138-154): the
receiver is borrowed, its shared dereferenced target is passed to the
callback, and the receiver is handed back unchanged; the body is
`f(Deref::deref(self))`. -/
def OverDeref.over_deref {α : Type u} {τ : Type v} {ρ : Type w}
    (d : Deref α τ) (v : α) (f : τ → ρ) : ρ × α :=
  (f (d.deref v), v)

/-- Embedding of `OverDerefMut::over_deref_mut` (src/lib.rs lines 157-174):
the receiver is borrowed uniquely, the callback receives a unique view of the
dereferenced target (a state transformer on the target), the target value the
callback produces is written back into the receiver, and the callback result
is returned; the body is `f(DerefMut::deref_mut(self))`. -/
def OverDerefMut.over_deref_mut {α : Type u} {τ : Type v} {ρ : Type w}
    (d : DerefMut α τ) (v : α) (f : τ → τ × ρ) : ρ × α :=
  ((f (d.deref v)).2, d.update v (f (d.deref v)).1)

/-- Counting instrumentation for a callback: wraps a pure function so that it
also threads a call counter, incremented once each time the callback runs.
Used to observe how many times an operation invokes its callback. -/
def countCalls {α : Type u} {ρ : Type v} (g : α → ρ) : α → Nat → ρ × Nat :=
  fun a n => (g a, n + 1)

/-- Concrete wrapper type standing in for a Rust smart pointer such as `Box`,
used to instantiate the deref-based operations on concrete inputs. -/
structure BoxV (τ : Type u) where
  val : τ

/-- Shared dereferencing dictionary for `BoxV`: the target is the wrapped
value. -/
def BoxV.derefImpl {τ : Type u} : Deref (BoxV τ) τ :=
  ⟨BoxV.val⟩

/-- Unique dereferencing dictionary for `BoxV`: writing through the unique
view replaces the wrapped value. -/
def BoxV.derefMutImpl {τ : Type u} : DerefMut (BoxV τ) τ :=
  { deref := BoxV.val, update := fun _ t => ⟨t⟩, deref_update := fun _ _ => rfl }

/-- C1: for every value `v` and every function `f`, the by-value transform
returns exactly `f` applied to `v`, the receiver being consumed by the call
(the receiver is passed to `f` by value and does not survive the call). -/
theorem C1_over_eq_apply {α : Type u} {ρ : Type v} (v : α) (f : α → ρ) :
    Over.over v f = f v :=
  rfl

/-- C2: for every value `v` and every function `f` taking a shared reference,
`over_ref` returns `f` applied to the borrowed receiver, and the receiver is
unchanged after the call (the caller gets back exactly the prior value). -/
theorem C2_over_ref_eq_apply_and_frame {α : Type u} {ρ : Type v} (v : α) (f : α → ρ) :
    (OverRef.over_ref v f).1 = f v ∧ (OverRef.over_ref v f).2 = v :=
  ⟨rfl, rfl⟩

/-- C3: for every value `v` and every mutating callback `f`, after `over_mut`
the receiver equals exactly the value `f` produced by mutating the passed-in
reference, and the call returns whatever `f` returned, not the receiver. -/
theorem C3_over_mut_mutates_and_returns {α : Type u} {ρ : Type v} (v : α) (f : α → α × ρ) :
    (OverMut.over_mut v f).2 = (f v).1 ∧ (OverMut.over_mut v f).1 = (f v).2 :=
  ⟨rfl, rfl⟩

/-- C4: for every deref-capable receiver `v` with dereferencing dictionary
`d` and every function `f` on the target type, `over_deref` returns `f`
applied to the shared dereferenced view of the receiver. -/
theorem C4_over_deref_eq_apply_deref {α : Type u} {τ : Type v} {ρ : Type w}
    (d : Deref α τ) (v : α) (f : τ → ρ) :
    (OverDeref.over_deref d v f).1 = f (d.deref v) :=
  rfl

/-- C5: for every receiver `v` with a unique dereferencing dictionary `dm`
and every mutating callback `f` on the target, `over_deref_mut` returns the
result `f` produced, and the mutation `f` performed on the target is
reflected in the receiver afterwards (dereferencing the post-call receiver
yields exactly the target value `f` produced). -/
theorem C5_over_deref_mut_mutates_and_returns {α : Type u} {τ : Type v} {ρ : Type w}
    (dm : DerefMut α τ) (v : α) (f : τ → τ × ρ) :
    (OverDerefMut.over_deref_mut dm v f).1 = (f (dm.deref v)).2 ∧
      dm.deref (OverDerefMut.over_deref_mut dm v f).2 = (f (dm.deref v)).1 :=
  ⟨rfl, dm.deref_update v (f (dm.deref v)).1⟩

/-- C6: each of the five operations invokes its supplied callback exactly
once: instrumenting the callback with a call counter, one call to any
operation raises the counter from `n` to `n + 1` and delivers the wrapped
function's value. -/
theorem C6_each_op_calls_callback_once {α : Type u} {τ : Type v} {ρ : Type w}
    (d : Deref α τ) (dm : DerefMut α τ) (v : α) (g : α → ρ) (gt : τ → ρ)
    (m : α → α) (mt : τ → τ) (n : Nat) :
    Over.over v (countCalls g) n = (g v, n + 1) ∧
      (OverRef.over_ref v (countCalls g)).1 n = (g v, n + 1) ∧
      (OverMut.over_mut v (fun a => (m a, countCalls g a))).1 n = (g v, n + 1) ∧
      (OverDeref.over_deref d v (countCalls gt)).1 n = (gt (d.deref v), n + 1) ∧
      (OverDerefMut.over_deref_mut dm v (fun t => (mt t, countCalls gt t))).1 n
        = (gt (dm.deref v), n + 1) :=
  ⟨rfl, rfl, rfl, rfl, rfl⟩

/-- C7: when the supplied callback signals failure by returning an error
value, every one of the five operations returns that failure value
unchanged: the library adds no error kinds of its own. -/
theorem C7_errors_propagate_unchanged {α : Type u} {τ : Type v} {ρ : Type w} {ε : Type w}
    (d : Deref α τ) (dm : DerefMut α τ) (v : α)
    (f : α → Except ε ρ) (fm : α → α × Except ε ρ)
    (ft : τ → Except ε ρ) (ftm : τ → τ × Except ε ρ) (e : ε)
    (h1 : f v = Except.error e) (h2 : (fm v).2 = Except.error e)
    (h3 : ft (d.deref v) = Except.error e)
    (h4 : (ftm (dm.deref v)).2 = Except.error e) :
    Over.over v f = Except.error e ∧
      (OverRef.over_ref v f).1 = Except.error e ∧
      (OverMut.over_mut v fm).1 = Except.error e ∧
      (OverDeref.over_deref d v ft).1 = Except.error e ∧
      (OverDerefMut.over_deref_mut dm v ftm).1 = Except.error e :=
  ⟨h1, h1, h2, h3, h4⟩

/-- Witness for C7: on the concrete receiver `BoxV.mk 5` with callbacks that
return the error value `7`, every operation returns exactly that error. -/
theorem C7_errors_propagate_unchanged_witness :
    Over.over (BoxV.mk 5) (fun _ => (Except.error 7 : Except Nat Nat)) = Except.error 7 ∧
      (OverRef.over_ref (BoxV.mk 5) (fun _ => (Except.error 7 : Except Nat Nat))).1
        = Except.error 7 ∧
      (OverMut.over_mut (BoxV.mk 5) (fun a => (a, (Except.error 7 : Except Nat Nat)))).1
        = Except.error 7 ∧
      (OverDeref.over_deref BoxV.derefImpl (BoxV.mk 5)
        (fun _ => (Except.error 7 : Except Nat Nat))).1 = Except.error 7 ∧
      (OverDerefMut.over_deref_mut BoxV.derefMutImpl (BoxV.mk 5)
        (fun t => (t, (Except.error 7 : Except Nat Nat)))).1 = Except.error 7 :=
  C7_errors_propagate_unchanged BoxV.derefImpl BoxV.derefMutImpl (BoxV.mk 5)
    (fun _ => Except.error 7) (fun a => (a, Except.error 7))
    (fun _ => Except.error 7) (fun t => (t, Except.error 7)) 7 rfl rfl rfl rfl

/-- C8: calling any of the five operations twice with a callback that does
not mutate state yields the same result both times. The second call is made
on the receiver state left by the first call; for the mutating operations,
not mutating means the callback returns the receiver (or target) state it
was given. -/
theorem C8_ops_idempotent {α : Type u} {τ : Type v} {ρ : Type w}
    (d : Deref α τ) (dm : DerefMut α τ) (v : α)
    (f : α → ρ) (fm : α → α × ρ) (ft : τ → ρ) (ftm : τ → τ × ρ)
    (hm : ∀ a, (fm a).1 = a) (htm : ∀ t, (ftm t).1 = t) :
    Over.over v f = Over.over v f ∧
      (OverRef.over_ref (OverRef.over_ref v f).2 f).1 = (OverRef.over_ref v f).1 ∧
      (OverMut.over_mut (OverMut.over_mut v fm).2 fm).1 = (OverMut.over_mut v fm).1 ∧
      (OverDeref.over_deref d (OverDeref.over_deref d v ft).2 ft).1
        = (OverDeref.over_deref d v ft).1 ∧
      (OverDerefMut.over_deref_mut dm (OverDerefMut.over_deref_mut dm v ftm).2 ftm).1
        = (OverDerefMut.over_deref_mut dm v ftm).1 := by
  refine ⟨rfl, rfl, ?_, rfl, ?_⟩
  · show (fm ((fm v).1)).2 = (fm v).2
    rw [hm v]
  · show (ftm (dm.deref (dm.update v (ftm (dm.deref v)).1))).2 = (ftm (dm.deref v)).2
    rw [htm (dm.deref v), dm.deref_update v (dm.deref v)]

/-- Witness for C8: on the concrete receiver `BoxV.mk 5` with non-mutating
callbacks (reading the wrapped value, or the target, without changing it),
calling each operation twice yields the same result both times. -/
theorem C8_ops_idempotent_witness :
    Over.over (BoxV.mk 5) (fun a => a.val * 2) = Over.over (BoxV.mk 5) (fun a => a.val * 2) ∧
      (OverRef.over_ref (OverRef.over_ref (BoxV.mk 5) (fun a => a.val * 2)).2
        (fun a => a.val * 2)).1
        = (OverRef.over_ref (BoxV.mk 5) (fun a => a.val * 2)).1 ∧
      (OverMut.over_mut (OverMut.over_mut (BoxV.mk 5) (fun a => (a, a.val * 2))).2
        (fun a => (a, a.val * 2))).1
        = (OverMut.over_mut (BoxV.mk 5) (fun a => (a, a.val * 2))).1 ∧
      (OverDeref.over_deref BoxV.derefImpl
        (OverDeref.over_deref BoxV.derefImpl (BoxV.mk 5) (fun t => t * 2)).2
        (fun t => t * 2)).1
        = (OverDeref.over_deref BoxV.derefImpl (BoxV.mk 5) (fun t => t * 2)).1 ∧
      (OverDerefMut.over_deref_mut BoxV.derefMutImpl
        (OverDerefMut.over_deref_mut BoxV.derefMutImpl (BoxV.mk 5) (fun t => (t, t * 2))).2
        (fun t => (t, t * 2))).1
        = (OverDerefMut.over_deref_mut BoxV.derefMutImpl (BoxV.mk 5) (fun t => (t, t * 2))).1 :=
  C8_ops_idempotent BoxV.derefImpl BoxV.derefMutImpl (BoxV.mk (5 : Nat))
    (fun a => a.val * 2) (fun a => (a, a.val * 2)) (fun t => t * 2) (fun t => (t, t * 2))
    (fun _ => rfl) (fun _ => rfl)

/-- C9: the dereferenced-view operations are exactly the reference operations
precomposed with one level of dereferencing: `over_deref` is `over_ref` with
the callback composed with the shared dereferencing view, and
`over_deref_mut` is `over_mut` with the target state transformer lifted
through the unique dereferencing view (run the callback on the dereferenced
target and write the produced target back). -/
theorem C9_deref_ops_refine_ref_ops {α : Type u} {τ : Type v} {ρ : Type w}
    (d : Deref α τ) (dm : DerefMut α τ) (v : α) (f : τ → ρ) (fm : τ → τ × ρ) :
    OverDeref.over_deref d v f = OverRef.over_ref v (fun a => f (d.deref a)) ∧
      OverDerefMut.over_deref_mut dm v fm
        = OverMut.over_mut v
            (fun a => (dm.update a (fm (dm.deref a)).1, (fm (dm.deref a)).2)) :=
  ⟨rfl, rfl⟩

/-- C10: `over_deref` takes only a shared borrow of the receiver, so the
receiver is unchanged after the call: the post-call receiver state equals the
value passed in. -/
theorem C10_over_deref_frame {α : Type u} {τ : Type v} {ρ : Type w}
    (d : Deref α τ) (v : α) (f : τ → ρ) :
    (OverDeref.over_deref d v f).2 = v :=
  rfl
